import Mathlib

/-!
Verification of `great_expectations_cloud/agent/message_service/subscriber.py`.

The file shallowly embeds the `Subscriber` class and its `EventContext`
data model. The subscriber's only owned mutable state is the integer
`_reconnect_delay` counter, so `Subscriber` is a one-field structure and
every method is a pure function threading that state. The broker client
(`AsyncRabbitMQClient`) is an external collaborator: its per-call behavior
(whether `run` raises, and the value of `was_consuming`) is passed in as
data, and the calls the subscriber makes on it (`run`, `stop`, sleeping)
are recorded in an effect trace in the order they happen. The callables
stored in an `EventContext` are defunctionalized: each closure the source
builds is represented by a first-order `Action` value recording the
arguments it was bound to, and `Action.invoke` gives the sequence of
async steps (sleeps and broker acknowledgment operations) performed when
the closure is called, following the bodies of the corresponding source
functions.
-/

namespace GXAgent

/-- Exception kinds that can escape the broker client's `run` call, as the
`except` clauses of `Subscriber.consume` distinguish them. `otherError`
stands for any exception matching none of the four `except` clauses; it
propagates out of the `try` block untouched. -/
inductive ExcKind
  | authenticationError
  | amqpError
  | channelError
  | keyboardInterrupt
  | unrecoverableConnectionError
  | otherError
deriving DecidableEq, Repr

/-- Result of one invocation of the broker client's blocking `run`:
either it returns normally or it raises an exception of some kind. -/
inductive RunResult
  | ok
  | raises (e : ExcKind)
deriving DecidableEq, Repr

/-- Modelled from the spec: the broker client collaborator
(`AsyncRabbitMQClient`, not part of the analyzed source) as the
subscriber observes it during one `consume` call: what its `run`
operation does, and what `was_consuming` reports afterwards. -/
structure ClientBehavior where
  runResult : RunResult
  was_consuming : Bool
deriving DecidableEq, Repr

/-- Observable effects of a `consume`/`close` call, in order: invoking the
client's `run`, invoking its `stop`, and `time.sleep` for a number of
seconds. -/
inductive Effect
  | run
  | stop
  | sleep (seconds : Nat)
deriving DecidableEq, Repr

/-- How a `consume` call terminates: a normal return, propagation of the
original exception object unchanged (a bare `raise` or an uncaught
exception), or a newly constructed exception raised with an explicit
cause (`raise K from e`). -/
inductive Outcome
  | normal
  | propagated (e : ExcKind)
  | raisedFrom (k : ExcKind) (cause : ExcKind)
deriving DecidableEq, Repr

/-- The `Subscriber`'s own mutable state: the `_reconnect_delay` counter
(integer seconds). The broker client reference is external and carries no
subscriber-owned state. -/
structure Subscriber where
  reconnect_delay : Nat
deriving DecidableEq, Repr

/-- `Subscriber.__init__`: the counter starts at 0. -/
def Subscriber.init : Subscriber := ⟨0⟩

/-- `Subscriber._get_reconnect_delay`: reset the counter to 0 when the
client was consuming, otherwise increment it; clamp the stored counter to
30; return the stored counter. The returned pair is (return value, updated
subscriber). -/
def Subscriber.get_reconnect_delay (s : Subscriber) (was_consuming : Bool) :
    Nat × Subscriber :=
  let d1 : Nat := if was_consuming then 0 else s.reconnect_delay + 1
  let d2 : Nat := min d1 30
  (d2, ⟨d2⟩)

/-- Control flow at the end of one iteration of the `while True` body in
`Subscriber.consume`: the `else` clause breaks, every `except` clause
(re-)raises, and an unmatched exception propagates. There is no
constructor for falling through to another iteration because no code path
in the body does so. -/
inductive LoopCtl
  | brk
  | raised (o : Outcome)
deriving DecidableEq, Repr

/-- One execution of the `try`/`except`/`else` body of the `while True`
loop in `Subscriber.consume`, given the client's behavior for this call.
Returns the effect trace, the loop control, and the updated subscriber. -/
def Subscriber.consumeBody (s : Subscriber) (c : ClientBehavior) :
    List Effect × LoopCtl × Subscriber :=
  match c.runResult with
  | RunResult.ok =>
      -- run returned: the `else: break` clause
      ([Effect.run], LoopCtl.brk, s)
  | RunResult.raises e =>
    match e with
    | ExcKind.authenticationError =>
        -- except AuthenticationError: stop, bare raise
        ([Effect.run, Effect.stop], LoopCtl.raised (Outcome.propagated e), s)
    | ExcKind.amqpError | ExcKind.channelError =>
        -- except (AMQPError, ChannelError): stop, sleep the computed
        -- reconnect delay, bare raise
        let r := s.get_reconnect_delay c.was_consuming
        ([Effect.run, Effect.stop, Effect.sleep r.1],
         LoopCtl.raised (Outcome.propagated e), r.2)
    | ExcKind.keyboardInterrupt =>
        -- except KeyboardInterrupt as e: stop, raise KeyboardInterrupt from e
        ([Effect.run, Effect.stop],
         LoopCtl.raised (Outcome.raisedFrom ExcKind.keyboardInterrupt e), s)
    | ExcKind.unrecoverableConnectionError =>
        -- except GXAgentUnrecoverableConnectionError: stop, bare raise
        ([Effect.run, Effect.stop], LoopCtl.raised (Outcome.propagated e), s)
    | ExcKind.otherError =>
        -- no matching except clause: the exception propagates untouched
        ([Effect.run], LoopCtl.raised (Outcome.propagated e), s)

/-- `Subscriber.consume`: the `while True` loop around one `run` attempt.
Since every path through the body breaks or raises (`LoopCtl` has no
continue case), the loop executes its body exactly once. -/
def Subscriber.consume (s : Subscriber) (c : ClientBehavior) :
    List Effect × Outcome × Subscriber :=
  let r := s.consumeBody c
  match r.2.1 with
  | LoopCtl.brk => (r.1, Outcome.normal, r.2.2)
  | LoopCtl.raised o => (r.1, o, r.2.2)

/-- `Subscriber.close`: calls `self.client.stop()` and nothing else. -/
def Subscriber.close (s : Subscriber) : List Effect × Subscriber :=
  ([Effect.stop], s)

/-- Modelled from the spec: the delivery payload (`OnMessagePayload` of
the broker client module, not part of the analyzed source) handed to the
dispatch callback; it carries the message body bytes, the delivery
identifier, and the correlation identifier. -/
structure OnMessagePayload where
  body : List Nat
  delivery_tag : Int
  correlation_id : String
deriving DecidableEq, Repr

/-- A defunctionalized lifecycle callable as stored in an `EventContext`:
the threadsafe ack callback obtained from
`client.get_threadsafe_ack_callback(delivery_tag)`, the threadsafe nack
callback from `client.get_threadsafe_nack_callback(delivery_tag,
requeue)`, and the binding of `Subscriber._redeliver_message` to a
delivery tag, requeue flag and delay. Each constructor records exactly
the arguments the source binds into the corresponding closure. -/
inductive Action
  | threadsafeAck (delivery_tag : Int)
  | threadsafeNack (delivery_tag : Int) (requeue : Bool)
  | redeliver (delivery_tag : Int) (requeue : Bool) (delay : Nat)
deriving DecidableEq, Repr

/-- Steps observable when a lifecycle action runs: a cooperative
`asyncio.sleep`, or an acknowledgment/rejection delivered to the broker
for a specific delivery tag. -/
inductive AsyncStep
  | sleep (delay : Nat)
  | ack (delivery_tag : Int)
  | nack (delivery_tag : Int) (requeue : Bool)
deriving DecidableEq, Repr

/-- `Subscriber._redeliver_message`: await `asyncio.sleep(delay)`, then
call `client.nack(delivery_tag, requeue)`. The coroutine's behavior is
the ordered list of its steps. -/
def Subscriber.redeliver_message (delivery_tag : Int) (requeue : Bool)
    (delay : Nat) : List AsyncStep :=
  [AsyncStep.sleep delay, AsyncStep.nack delivery_tag requeue]

/-- Invoking a lifecycle action. The threadsafe callbacks perform the
broker operation they were built for (modelled from the spec: the broker
client's callback factories marshal a single ack/nack for the bound
delivery tag); the redeliver action runs `Subscriber._redeliver_message`
with its bound arguments. -/
def Action.invoke : Action → List AsyncStep
  | Action.threadsafeAck t => [AsyncStep.ack t]
  | Action.threadsafeNack t r => [AsyncStep.nack t r]
  | Action.redeliver t r d => Subscriber.redeliver_message t r d

/-- The `EventContext` dataclass: the parsed event, the correlation id,
and the three lifecycle actions. -/
structure EventContext (Event : Type) where
  event : Event
  correlation_id : String
  processed_successfully : Action
  processed_with_failures : Action
  redeliver_message : Action
deriving DecidableEq

/-- `Subscriber._on_message_handler`: parse the body (the parser
`EventHandler.parse_event_from` is an external collaborator, passed as
`parse`), build the two threadsafe callbacks and the redelivery binding
for this payload's delivery tag, assemble the `EventContext`, and return
the result of calling `on_message` on it. -/
def Subscriber.on_message_handler {Event R : Type} (parse : List Nat → Event)
    (payload : OnMessagePayload) (on_message : EventContext Event → R) : R :=
  let event := parse payload.body
  let ack_callback := Action.threadsafeAck payload.delivery_tag
  let nack_callback := Action.threadsafeNack payload.delivery_tag false
  let redeliver_message := Action.redeliver payload.delivery_tag true 3
  let event_context : EventContext Event :=
    { event := event
      correlation_id := payload.correlation_id
      processed_successfully := ack_callback
      processed_with_failures := nack_callback
      redeliver_message := redeliver_message }
  on_message event_context

/-- The `EventContext` the dispatch path builds for a payload, recovered
by invoking the handler with the identity continuation. -/
def eventContextOf {Event : Type} (parse : List Nat → Event)
    (payload : OnMessagePayload) : EventContext Event :=
  Subscriber.on_message_handler parse payload id

/-- The exception kinds matched by the `except (AMQPError, ChannelError)`
clause: transient protocol failures. -/
def ExcKind.isTransient : ExcKind → Bool
  | ExcKind.amqpError | ExcKind.channelError => true
  | _ => false

/-- The exception kinds matched by some `except` clause of `consume`:
authentication failures, transient protocol failures, interrupts, and
broker-declared unrecoverable-connection errors. -/
def ExcKind.classified : ExcKind → Bool
  | ExcKind.otherError => false
  | _ => true

/-- One externally triggered operation on a subscriber: a `consume` call
under a given client behavior, one dispatch of a delivered message (which
reads only the client, never the counter), a `close` call, or one
`_get_reconnect_delay` computation. -/
inductive AgentOp
  | consumeOp (c : ClientBehavior)
  | dispatchOp
  | closeOp
  | delayCalcOp (was_consuming : Bool)
deriving DecidableEq, Repr

/-- State transition of the subscriber under one operation. -/
def applyOp : AgentOp → Subscriber → Subscriber
  | AgentOp.consumeOp c, s => (s.consume c).2.2
  | AgentOp.dispatchOp, s => s
  | AgentOp.closeOp, s => (s.close).2
  | AgentOp.delayCalcOp w, s => (s.get_reconnect_delay w).2

lemma get_reconnect_delay_state_le (s : Subscriber) (w : Bool) :
    (s.get_reconnect_delay w).2.reconnect_delay ≤ 30 :=
  Nat.min_le_right _ _

lemma consume_state_cases (s : Subscriber) (c : ClientBehavior) :
    (s.consume c).2.2 = s ∨
    (s.consume c).2.2 = (s.get_reconnect_delay c.was_consuming).2 := by
  obtain ⟨rr, w⟩ := c
  cases rr with
  | ok => exact Or.inl rfl
  | raises e =>
    cases e with
    | amqpError => exact Or.inr rfl
    | channelError => exact Or.inr rfl
    | authenticationError => exact Or.inl rfl
    | keyboardInterrupt => exact Or.inl rfl
    | unrecoverableConnectionError => exact Or.inl rfl
    | otherError => exact Or.inl rfl

lemma applyOp_state_cases (op : AgentOp) (s : Subscriber) :
    applyOp op s = s ∨ ∃ w, applyOp op s = (s.get_reconnect_delay w).2 := by
  cases op with
  | consumeOp c =>
    rcases consume_state_cases s c with h | h
    · exact Or.inl h
    · exact Or.inr ⟨c.was_consuming, h⟩
  | dispatchOp => exact Or.inl rfl
  | closeOp => exact Or.inl rfl
  | delayCalcOp w => exact Or.inr ⟨w, rfl⟩

lemma applyOp_le (op : AgentOp) (s : Subscriber) (h : s.reconnect_delay ≤ 30) :
    (applyOp op s).reconnect_delay ≤ 30 := by
  rcases applyOp_state_cases op s with h1 | ⟨w, h1⟩
  · rw [h1]; exact h
  · rw [h1]; exact get_reconnect_delay_state_le s w

lemma foldl_applyOp_le (ops : List AgentOp) (s : Subscriber)
    (h : s.reconnect_delay ≤ 30) :
    (ops.foldl (fun t op => applyOp op t) s).reconnect_delay ≤ 30 := by
  induction ops generalizing s with
  | nil => exact h
  | cons op rest ih => exact ih _ (applyOp_le op s h)

/-- C1: for every sequence of calls to the reconnect-delay calculation,
the counter starts at 0; a call with `was_consuming = false` increments
the counter by 1 clamped to 30, a call with `was_consuming = true` resets
it to 0 regardless of its prior value, and the call returns the updated
counter. -/
theorem reconnect_delay_policy_spec :
    Subscriber.init.reconnect_delay = 0 ∧
    ∀ (s : Subscriber) (w : Bool),
      (s.get_reconnect_delay w).2.reconnect_delay =
        (if w then 0 else min (s.reconnect_delay + 1) 30) ∧
      (s.get_reconnect_delay w).1 = (s.get_reconnect_delay w).2.reconnect_delay := by
  refine ⟨rfl, ?_⟩
  intro s w
  cases w <;> simp [Subscriber.get_reconnect_delay, Subscriber.init]

/-- C2: when `run` raises a transient protocol failure (AMQP or channel
error), `consume` stops the client, sleeps for exactly the value returned
by the reconnect-delay policy, re-raises the same failure, and invokes
`run` only once (no automatic retry after the backoff sleep). -/
theorem consume_transient_stops_sleeps_propagates (s : Subscriber) (w : Bool)
    (e : ExcKind) (h : e.isTransient = true) :
    s.consume ⟨RunResult.raises e, w⟩ =
      ([Effect.run, Effect.stop, Effect.sleep (s.get_reconnect_delay w).1],
       Outcome.propagated e, (s.get_reconnect_delay w).2) ∧
    (s.consume ⟨RunResult.raises e, w⟩).1.count Effect.run = 1 := by
  cases e <;>
    simp_all [Subscriber.consume, Subscriber.consumeBody, ExcKind.isTransient,
      List.count_cons]

/-- Witness for C2 at a concrete subscriber state and client behavior. -/
theorem consume_transient_stops_sleeps_propagates_witness :
    Subscriber.consume ⟨5⟩ ⟨RunResult.raises ExcKind.amqpError, false⟩ =
      ([Effect.run, Effect.stop, Effect.sleep 6],
       Outcome.propagated ExcKind.amqpError, ⟨6⟩) ∧
    (Subscriber.consume ⟨5⟩ ⟨RunResult.raises ExcKind.amqpError, false⟩).1.count
      Effect.run = 1 := by
  have h := consume_transient_stops_sleeps_propagates ⟨5⟩ false ExcKind.amqpError
    (by decide)
  simpa [Subscriber.get_reconnect_delay] using h

/-- C3: when `run` raises an authentication failure, `consume` calls
`stop` exactly once, re-raises the same failure kind, does not sleep, and
leaves the reconnect-delay counter untouched. -/
theorem consume_auth_stops_once_and_propagates (s : Subscriber) (w : Bool) :
    s.consume ⟨RunResult.raises ExcKind.authenticationError, w⟩ =
      ([Effect.run, Effect.stop],
       Outcome.propagated ExcKind.authenticationError, s) ∧
    (s.consume ⟨RunResult.raises ExcKind.authenticationError, w⟩).1.count
      Effect.stop = 1 ∧
    ∀ n : Nat,
      Effect.sleep n ∉ (s.consume ⟨RunResult.raises ExcKind.authenticationError, w⟩).1 := by
  refine ⟨rfl, rfl, ?_⟩
  intro n
  simp [Subscriber.consume, Subscriber.consumeBody]

/-- C4: when `run` returns without raising, `consume` exits its loop
after that single invocation and returns normally: no `stop`, no sleep,
and the reconnect-delay counter is untouched. -/
theorem consume_clean_run_returns_normally (s : Subscriber) (w : Bool) :
    s.consume ⟨RunResult.ok, w⟩ = ([Effect.run], Outcome.normal, s) ∧
    (s.consume ⟨RunResult.ok, w⟩).1.count Effect.run = 1 ∧
    Effect.stop ∉ (s.consume ⟨RunResult.ok, w⟩).1 ∧
    ∀ n : Nat, Effect.sleep n ∉ (s.consume ⟨RunResult.ok, w⟩).1 := by
  refine ⟨rfl, rfl, ?_, fun n => ?_⟩ <;>
    simp [Subscriber.consume, Subscriber.consumeBody]

/-- C5: for every failure kind matched by one of `consume`'s `except`
clauses, the client's `stop` is called right after `run` and before the
exception propagates, and the failure is re-raised rather than
swallowed. -/
theorem consume_classified_failure_stops_before_raising (s : Subscriber)
    (c : ClientBehavior) (e : ExcKind) (he : c.runResult = RunResult.raises e)
    (hc : e.classified = true) :
    (∃ rest : List Effect,
      (s.consume c).1 = Effect.run :: Effect.stop :: rest) ∧
    (s.consume c).2.1 ≠ Outcome.normal := by
  obtain ⟨rr, w⟩ := c
  cases he
  cases e <;>
    simp_all [Subscriber.consume, Subscriber.consumeBody, ExcKind.classified]

/-- Witness for C5 at a concrete subscriber state and client behavior. -/
theorem consume_classified_failure_stops_before_raising_witness :
    (∃ rest : List Effect,
      (Subscriber.consume ⟨0⟩
        ⟨RunResult.raises ExcKind.unrecoverableConnectionError, true⟩).1 =
        Effect.run :: Effect.stop :: rest) ∧
    (Subscriber.consume ⟨0⟩
      ⟨RunResult.raises ExcKind.unrecoverableConnectionError, true⟩).2.1 ≠
      Outcome.normal :=
  consume_classified_failure_stops_before_raising ⟨0⟩
    ⟨RunResult.raises ExcKind.unrecoverableConnectionError, true⟩
    ExcKind.unrecoverableConnectionError rfl (by decide)

/-- C6: when `run` raises a keyboard interrupt, `consume` stops the
client and then raises a fresh `KeyboardInterrupt` chained to the
original (`raise KeyboardInterrupt from e`); the outcome is never the
original object propagated unchanged. -/
theorem consume_interrupt_raises_new_chained (s : Subscriber) (w : Bool) :
    s.consume ⟨RunResult.raises ExcKind.keyboardInterrupt, w⟩ =
      ([Effect.run, Effect.stop],
       Outcome.raisedFrom ExcKind.keyboardInterrupt ExcKind.keyboardInterrupt,
       s) ∧
    ∀ e : ExcKind,
      (s.consume ⟨RunResult.raises ExcKind.keyboardInterrupt, w⟩).2.1 ≠
        Outcome.propagated e := by
  refine ⟨rfl, ?_⟩
  intro e
  simp [Subscriber.consume, Subscriber.consumeBody]

/-- C7: `close` results in exactly one `stop` call on the client and does
nothing else: no sleep, no exception, and the reconnect-delay counter is
unchanged. -/
theorem close_stops_exactly_once (s : Subscriber) :
    s.close = ([Effect.stop], s) ∧
    (s.close).1.count Effect.stop = 1 ∧
    (∀ n : Nat, Effect.sleep n ∉ (s.close).1) ∧
    (s.close).2.reconnect_delay = s.reconnect_delay := by
  refine ⟨rfl, rfl, ?_, rfl⟩
  intro n
  simp [Subscriber.close]

/-- C8: for every delivered payload, invoking the `redeliver_message`
action stored in its `EventContext` first sleeps for the fixed delay of 3
time units and then nacks that payload's own delivery tag with
`requeue = true`, each exactly once and in that order. -/
theorem redeliver_action_sleeps_then_nacks_requeue {Event : Type}
    (parse : List Nat → Event) (payload : OnMessagePayload) :
    (eventContextOf parse payload).redeliver_message.invoke =
      [AsyncStep.sleep 3, AsyncStep.nack payload.delivery_tag true] ∧
    (eventContextOf parse payload).redeliver_message.invoke =
      Subscriber.redeliver_message payload.delivery_tag true 3 :=
  ⟨rfl, rfl⟩

/-- C9: the dispatch path builds, per payload, an `EventContext` holding
the parsed event and that payload's correlation id, whose three lifecycle
actions are pairwise distinct and each bound to that payload's own
delivery tag (the threadsafe failure action with `requeue = false`), and
invokes the caller's `on_message` synchronously with that context,
returning its result; every broker operation an action performs targets
only its own payload's delivery tag. -/
theorem dispatch_builds_bound_distinct_actions {Event R : Type}
    (parse : List Nat → Event) (payload : OnMessagePayload)
    (on_message : EventContext Event → R) :
    Subscriber.on_message_handler parse payload on_message =
      on_message (eventContextOf parse payload) ∧
    (eventContextOf parse payload).event = parse payload.body ∧
    (eventContextOf parse payload).correlation_id = payload.correlation_id ∧
    (eventContextOf parse payload).processed_successfully =
      Action.threadsafeAck payload.delivery_tag ∧
    (eventContextOf parse payload).processed_with_failures =
      Action.threadsafeNack payload.delivery_tag false ∧
    (eventContextOf parse payload).redeliver_message =
      Action.redeliver payload.delivery_tag true 3 ∧
    (eventContextOf parse payload).processed_successfully ≠
      (eventContextOf parse payload).processed_with_failures ∧
    (eventContextOf parse payload).processed_successfully ≠
      (eventContextOf parse payload).redeliver_message ∧
    (eventContextOf parse payload).processed_with_failures ≠
      (eventContextOf parse payload).redeliver_message ∧
    (eventContextOf parse payload).processed_successfully.invoke =
      [AsyncStep.ack payload.delivery_tag] ∧
    (eventContextOf parse payload).processed_with_failures.invoke =
      [AsyncStep.nack payload.delivery_tag false] ∧
    (eventContextOf parse payload).redeliver_message.invoke =
      [AsyncStep.sleep 3, AsyncStep.nack payload.delivery_tag true] := by
  refine ⟨rfl, rfl, rfl, rfl, rfl, rfl, ?_, ?_, ?_, rfl, rfl, rfl⟩ <;>
    simp [eventContextOf, Subscriber.on_message_handler]

/-- C10: the reconnect-delay counter is 0 at construction and stays
between 0 and 30 inclusive after any sequence of operations; `close` and
a clean `consume` leave the whole subscriber state unchanged, and every
operation either leaves the counter unchanged or sets it through the
reconnect-delay calculation. -/
theorem reconnect_counter_invariant :
    Subscriber.init.reconnect_delay = 0 ∧
    (∀ ops : List AgentOp,
      (ops.foldl (fun t op => applyOp op t) Subscriber.init).reconnect_delay ≤ 30) ∧
    (∀ s : Subscriber, (s.close).2 = s) ∧
    (∀ (s : Subscriber) (w : Bool), (s.consume ⟨RunResult.ok, w⟩).2.2 = s) ∧
    (∀ (op : AgentOp) (s : Subscriber),
      applyOp op s = s ∨ ∃ w, applyOp op s = (s.get_reconnect_delay w).2) := by
  refine ⟨rfl, ?_, fun s => rfl, fun s w => rfl, applyOp_state_cases⟩
  intro ops
  exact foldl_applyOp_le ops Subscriber.init (by decide)

end GXAgent
